import Mathlib

/-!
# Verification of the dual-search orchestrator

Shallow embedding of the retrieval orchestrator of this repository:
the Tavily-based search flow (`tavily-file-search`: query validation,
dual-domain search, merge/rank, answer generation, citation formatting)
and the composite `dualSearchTool` that sequences the file-database
search and the Tavily search.

External capabilities (the OpenAI classification/generation calls, the
Tavily backend searches, and the file-database search whose module is
not part of the sources) are modelled as inputs of an environment
record: a call that can throw is an `Except String` value, and the
source's `try`/`catch` blocks become the explicit handling of the
`.error` case.  Progress events written to the data stream are a pure
side channel and are not modelled.
-/

namespace VinUniSearch

/-- A search result as returned by the Tavily backend adapter:
`{title, url, content, rawContent, score}`.  `score` is optional
(`b.score || 0` in the source defaults a missing score to `0`). -/
structure SearchResult where
  title : String
  url : String
  content : String
  rawContent : String
  score : Option ℚ
deriving DecidableEq, Repr

/-- A citation record as produced by `formatCitations` in
`tavily-file-search`: `{title, url, content, score}` (the `content`
field is filled from the result's `rawContent`). -/
structure Citation where
  title : String
  url : String
  content : String
  score : Option ℚ
deriving DecidableEq, Repr

/-! ## Constants (from the top of `tavily-file-search`) -/

def DEFAULT_ERROR_MESSAGE : String :=
  "An unexpected error has occurred. Please refresh the page, delete this chat or try again later!"

def DENIED_MESSAGE : String :=
  "I'm sorry, but I can only assist with questions related to VinUni-related topics. Please ask questions about admissions, scholarships, courses, faculty, research, campus life, or other university-related topics."

def MAX_RESULTS_PER_DOMAIN : Nat := 5

/-- The reason string built by `validateVinUniQuery` when the classifier
answers `DENIED`. -/
def VALIDATION_DENIED_REASON : String :=
  "Your question doesn't appear to be related to VinUni or university topics. Please ask about admissions, courses, policies, campus life, or other university-related matters."

/-- Fixed answer returned when the merged result set is empty
(`searchResponse.totalCount === 0`). -/
def NO_RESULTS_MESSAGE : String :=
  "I couldn't find any relevant information in the VinUni documents for your query. This could mean:\n\n1. The information might not be available in our indexed documents\n2. Try rephrasing your question with different keywords\n3. Your question might be too specific or too broad\n\nPlease try rephrasing your search query or ask about other VinUni-related topics such as admissions, courses, policies, or campus life."

/-- Fixed answer returned when the generation capability outputs the
literal token `NOT_FOUND`. -/
def NOT_FOUND_MESSAGE : String :=
  "I couldn't find specific information to answer your question in the available VinUni documents. Please try rephrasing your question or ask about other VinUni-related topics."

/-! ## Domain filter (`isVinUniDomain`) -/

/-- Host extraction of `new URL(url).hostname` for http(s) URLs, the
only shape the tool feeds into it: the scheme must be `http://` or
`https://`, the host runs until a `/`, `:`, `?` or `#`, and an empty
host is a parse failure (in JS, `new URL` throws).  URLs with
credentials or non-http schemes are outside this model.  The scan is
written on the underlying character lists so that it evaluates on
concrete inputs. -/
def parseHost (url : String) : Option String :=
  let hostOf : List Char → Option String := fun rest =>
    let host := rest.takeWhile fun c => !(c == '/' || c == ':' || c == '?' || c == '#')
    if host.isEmpty then none else some (String.mk host)
  if "https://".data.isPrefixOf url.data then hostOf (url.data.drop 8)
  else if "http://".data.isPrefixOf url.data then hostOf (url.data.drop 7)
  else none

/-- Lower-casing of a host string (`hostname.toLowerCase()`),
character-wise. -/
def lowerHost (s : String) : String := String.mk (s.data.map Char.toLower)

/-- Suffix test `str.endsWith(suffix)` on the underlying character lists. -/
def strEndsWith (s suffixStr : String) : Bool := suffixStr.data.isSuffixOf s.data

/-- Domain filter `isVinUniDomain(url)`: parse the URL; on failure return `false`;
otherwise lower-case the host and accept exactly when it ends with
`.vinuni.edu.vn` or equals `vinuni.edu.vn`. -/
def isVinUniDomain (url : String) : Bool :=
  match parseHost url with
  | none => false
  | some host =>
    let hostname := lowerHost host
    strEndsWith hostname ".vinuni.edu.vn" || hostname == "vinuni.edu.vn"

/-- Result filter `filterVinUniResults`: keep results with a non-empty `url` field
(JS truthiness of `result.url`) that pass the domain filter. -/
def filterVinUniResults (results : List SearchResult) : List SearchResult :=
  results.filter fun result => result.url != "" && isVinUniDomain result.url

/-! ## Result merge (`performDualDomainSearch`, combine/sort/slice) -/

/-- Effective relevance score: `result.score || 0`. -/
def scoreD (r : SearchResult) : ℚ := r.score.getD 0

/-- The ordering used by `combinedResults.sort((a, b) => (b.score || 0) - (a.score || 0))`:
`a` may precede `b` exactly when the comparator is non-positive,
i.e. when `b`'s effective score is at most `a`'s. -/
def scoreLe (a b : SearchResult) : Bool := scoreD b ≤ scoreD a

/-- The merge step of `performDualDomainSearch`: concatenate the
contributing result sets, sort descending by score (ECMAScript
`Array.prototype.sort` is stable, hence the stable `mergeSort`), and
keep at most 6 results.  There is no de-duplication step. -/
def mergeResultSets (resultSets : List (List SearchResult)) : List SearchResult :=
  (resultSets.flatten.mergeSort scoreLe).take 6

/-! ## Citation formatter (`formatCitations`) -/

/-- Citation formatter `formatCitations`: project each search result to
`{title, url, content: result.rawContent, score}`. -/
def formatCitations (searchResults : List SearchResult) : List Citation :=
  searchResults.map fun result =>
    { title := result.title
      url := result.url
      content := result.rawContent
      score := result.score }

/-- The projection applied by `formatCitations` to one result, named
for the correspondence theorem. -/
def citationOfResult (result : SearchResult) : Citation :=
  { title := result.title
    url := result.url
    content := result.rawContent
    score := result.score }

/-- The preview string the UI renderer derives from a citation
(`citation.content ? citation.content.substring(0, 150) + '...' : 'No preview available'`
in the search-tool result component). -/
def citationPreviewUI (citation : Citation) : String :=
  if citation.content != "" then String.mk (citation.content.data.take 150) ++ "..."
  else "No preview available"

/-! ## Query validation (`validateVinUniQuery`) -/

/-- Whitespace trimming `result?.trim()` of the classifier response,
character-wise on both ends (ASCII whitespace model of the JS
`String.prototype.trim`). -/
def strTrim (s : String) : String :=
  String.mk (((s.data.dropWhile Char.isWhitespace).reverse.dropWhile Char.isWhitespace).reverse)

/-- Result shape of `validateVinUniQuery`: `{isValid, reason?}`. -/
structure ValidationResult where
  isValid : Bool
  reason : Option String := none
deriving DecidableEq, Repr

/-- Query validation `validateVinUniQuery`, as a function of the classification
capability's outcome (`Except` = the OpenAI call threw; `Option` = the
response had no content).  On a throw the `catch` defaults to
`isValid = true`; otherwise the query is invalid exactly when the
trimmed content is the literal `DENIED`. -/
def validateVinUniQuery (classifyOutcome : Except String (Option String)) : ValidationResult :=
  match classifyOutcome with
  | .error _ => { isValid := true }
  | .ok content =>
    if content.map strTrim = some "DENIED" then
      { isValid := false, reason := some VALIDATION_DENIED_REASON }
    else
      { isValid := true }

/-! ## Answer generation (`generateAnswerWithContext`) -/

/-- Answer generation `generateAnswerWithContext`, as a function of the generation
capability's outcome.  A thrown call propagates (the local `catch`
rethrows); a missing or empty content (`if (!answer) throw`) becomes an
error as well; otherwise the raw text is returned.  The prompt assembly
does not influence the modelled outcome and is not embedded. -/
def generateAnswerWithContext (generateOutcome : Except String (Option String)) :
    Except String String :=
  match generateOutcome with
  | .error e => .error e
  | .ok none => .error "Failed to generate answer"
  | .ok (some answer) =>
    if answer = "" then .error "Failed to generate answer" else .ok answer

/-! ## Dual-domain search (`performDualDomainSearch`) -/

/-- Environment of one `fetchTavilyFileSearch` call: the outcomes of
the four external calls it can make. -/
structure TavilyEnv where
  /-- Outcome of the classification call inside `validateVinUniQuery`. -/
  validation : Except String (Option String)
  /-- Outcome of the Tavily search on `site:policy.vinuni.edu.vn`
  (`response.results || []` collapses a missing list to `[]`). -/
  policySearch : Except String (List SearchResult)
  /-- Outcome of the unrestricted Tavily web search. -/
  generalSearch : Except String (List SearchResult)
  /-- Outcome of the generation call inside `generateAnswerWithContext`. -/
  generation : Except String (Option String)

/-- Return shape of `performDualDomainSearch`. -/
structure SearchResponse where
  results : List SearchResult
  policyCount : Nat
  mainCount : Nat
  totalCount : Nat
  generalSearchTotal : Nat
  filteredFromGeneral : Nat
deriving DecidableEq, Repr

/-- Search step `performDualDomainSearch`: policy search, then general search, the
general results filtered to VinUni domains and capped at
`MAX_RESULTS_PER_DOMAIN`, then both sets merged (sort by score, cap 6).
A throw of either backend call propagates (the local `catch`
rethrows). -/
def performDualDomainSearch (env : TavilyEnv) : Except String SearchResponse :=
  match env.policySearch with
  | .error e => .error e
  | .ok policyResults =>
    match env.generalSearch with
    | .error e => .error e
    | .ok generalResults =>
      let filteredGeneralResults := filterVinUniResults generalResults
      let topGeneralResults := filteredGeneralResults.take MAX_RESULTS_PER_DOMAIN
      let sortedResults := mergeResultSets [policyResults, topGeneralResults]
      .ok { results := sortedResults
            policyCount := policyResults.length
            mainCount := topGeneralResults.length
            totalCount := sortedResults.length
            generalSearchTotal := generalResults.length
            filteredFromGeneral := filteredGeneralResults.length }

/-! ## Tavily file search (`fetchTavilyFileSearch`) -/

/-- Diagnostic statistics attached to several return shapes. -/
structure SearchStats where
  policyResults : Nat
  vinUniDomainResults : Nat
  totalResults : Nat
  generalSearchTotal : Nat
  filteredFromGeneral : Nat
deriving DecidableEq, Repr

/-- The stats projection used by every `searchStats:` literal in
`fetchTavilyFileSearch`. -/
def statsOf (response : SearchResponse) : SearchStats :=
  { policyResults := response.policyCount
    vinUniDomainResults := response.mainCount
    totalResults := response.totalCount
    generalSearchTotal := response.generalSearchTotal
    filteredFromGeneral := response.filteredFromGeneral }

/-- Return shape of `fetchTavilyFileSearch`.  A field absent from a JS
return literal is `undefined`, i.e. falsy, modelled by the defaults
(`denied := false`, optional diagnostics `none`). -/
structure TavilyResult where
  answer : String
  citations : List Citation
  denied : Bool := false
  searchQuery : Option String := none
  keywords : Option String := none
  searchStats : Option SearchStats := none
deriving DecidableEq, Repr

/-- The result built by the top-level `catch` of
`fetchTavilyFileSearch`. -/
def tavilyErrorResult : TavilyResult :=
  { answer := DEFAULT_ERROR_MESSAGE, citations := [] }

/-- Main flow `fetchTavilyFileSearch`: validate, search, generate; every failure
of a step is recovered (directly or by the surrounding `catch`, whose
`.error` branches appear inline here).  Keyword extraction is commented
out in the source (the raw query is passed through) and the progress
events are a side channel, so neither is modelled. -/
def fetchTavilyFileSearch (env : TavilyEnv) (query : String) : TavilyResult :=
  let validation := validateVinUniQuery env.validation
  if validation.isValid = false then
    { answer := validation.reason.getD DENIED_MESSAGE, citations := [], denied := true }
  else
    match performDualDomainSearch env with
    | .error _ => tavilyErrorResult
    | .ok searchResponse =>
      if searchResponse.totalCount = 0 then
        { answer := NO_RESULTS_MESSAGE, citations := []
          searchStats := some (statsOf searchResponse) }
      else
        match generateAnswerWithContext env.generation with
        | .error _ => tavilyErrorResult
        | .ok answer =>
          if answer = "DENIED" then
            { answer := DENIED_MESSAGE, citations := [], denied := true }
          else if answer = "NOT_FOUND" then
            { answer := NOT_FOUND_MESSAGE
              citations := formatCitations searchResponse.results
              searchStats := some (statsOf searchResponse) }
          else
            { answer := answer
              citations := formatCitations searchResponse.results
              searchQuery := some query
              keywords := some query
              searchStats := some (statsOf searchResponse) }

/-- The backend search calls one orchestration can issue. -/
inductive BackendCall where
  | fileSearch
  | tavilyPolicy
  | tavilyGeneral
deriving DecidableEq, Repr

/-- The Tavily backend search calls issued by one
`fetchTavilyFileSearch` run: none when validation denies the query;
otherwise the policy search is issued, and the general search is issued
exactly when the policy search did not throw. -/
def tavilyCalls (env : TavilyEnv) : List BackendCall :=
  if (validateVinUniQuery env.validation).isValid = false then []
  else
    match env.policySearch with
    | .error _ => [.tavilyPolicy]
    | .ok _ => [.tavilyPolicy, .tavilyGeneral]

/-! ## Composite dual search (`dualSearchTool.execute`) -/

/-- Return shape of `fetchFileSearch` as consumed by the dual-search
tool (`file-search` is an external collaborator here: only its
`{answer, citations}` result is read). -/
structure FileSearchResult where
  answer : String
  citations : List Citation
deriving DecidableEq, Repr

/-- Diagnostic statistics of the dual-search return shapes; fields that
a given return literal omits keep their `none`/default value. -/
structure DualStats where
  fileSearchCompleted : Bool
  tavilySearchCompleted : Bool
  fileResultsFound : Option Bool := none
  tavilyResultsFound : Option Bool := none
  fileCitations : Option Nat := none
  tavilyCitations : Option Nat := none
  totalSources : Nat
deriving DecidableEq, Repr

/-- Return shape of the dual-search tool's `execute`. -/
structure DualResult where
  answer : String
  citations : List Citation
  denied : Bool := false
  searchStats : Option DualStats := none
deriving DecidableEq, Repr

/-- Environment of one dual-search `execute` call. -/
structure DualEnv where
  /-- `process.env.VECTOR_STORE_ID`; absence skips the file search. -/
  vectorStoreId : Option String
  /-- `process.env.TAVILY_API_KEY`; absence skips the Tavily search. -/
  tavilyApiKey : Option String
  /-- Outcome of `fetchFileSearch` (`Except.error` = the call threw and
  the local `catch` ran). -/
  fileSearch : Except String FileSearchResult
  /-- Environment of the nested `fetchTavilyFileSearch` call. -/
  tavily : TavilyEnv

/-- The dual-search denied-message literal compared against the file
answer (the short message, without the trailing topic list). -/
def FILE_DENIED_MESSAGE : String :=
  "I'm sorry, but I can only assist with questions related to VinUni-related topics."

/-- Fixed dual-search answer when neither backend produced usable
results. -/
def DUAL_NO_RESULTS_MESSAGE : String :=
  "I couldn't find relevant information in either the file database or VinUni policy documents. Please try rephrasing your question or asking about other VinUni-related topics."

/-- The result built by the outer `catch` of the dual-search
`execute`. -/
def dualErrorResult : DualResult :=
  { answer := "An unexpected error occurred during the search. Please try again later."
    citations := [] }

/-- The file-search step of the dual search: `none` when the vector
store id is missing (skip) or `fetchFileSearch` threw (the local
`catch` ran); otherwise the returned result. -/
def fileSearchOutcome (env : DualEnv) : Option FileSearchResult :=
  match env.vectorStoreId with
  | none => none
  | some _ =>
    match env.fileSearch with
    | .error _ => none
    | .ok fileSearchResults => some fileSearchResults

/-- The meaningfulness test on the file answer
(`fileSearchResults.answer && answer !== <denied> && answer !== <error>`;
JS truthiness of a string is non-emptiness). -/
def usableFileAnswer (answer : String) : Bool :=
  answer != "" && answer != FILE_DENIED_MESSAGE && answer != DEFAULT_ERROR_MESSAGE

/-- Dual-search flag `hasFileResults`. -/
def hasFileResults (env : DualEnv) : Bool :=
  match fileSearchOutcome env with
  | some fileSearchResults => usableFileAnswer fileSearchResults.answer
  | none => false

/-- The Tavily step of the dual search: skipped when the API key is
missing; `fetchTavilyFileSearch` itself never throws, so the
surrounding `catch` has no error path to model. -/
def tavilyOutcome (env : DualEnv) (query : String) : Option TavilyResult :=
  match env.tavilyApiKey with
  | none => none
  | some _ => some (fetchTavilyFileSearch env.tavily query)

/-- The meaningfulness test on the Tavily result
(`tavilyResults.answer && !tavilyResults.denied && answer !== <error>`). -/
def usableTavilyResult (t : TavilyResult) : Bool :=
  t.answer != "" && !t.denied && t.answer != DEFAULT_ERROR_MESSAGE

/-- Dual-search flag `hasTavilyResults`. -/
def hasTavilyResults (env : DualEnv) (query : String) : Bool :=
  match tavilyOutcome env query with
  | some t => usableTavilyResult t
  | none => false

/-- The backend search calls issued by one dual-search `execute` run:
the file-database call whenever the vector store is configured
(regardless of the later validation inside the Tavily step), then the
Tavily calls whenever the API key is configured. -/
def dualCalls (env : DualEnv) : List BackendCall :=
  (if env.vectorStoreId.isSome then [BackendCall.fileSearch] else [])
    ++ (if env.tavilyApiKey.isSome then tavilyCalls env.tavily else [])

/-- Citations contributed by the file step (pushed only when the file
answer is meaningful; pushing an empty list equals not pushing). -/
def fileCitationsPart (env : DualEnv) : List Citation :=
  match fileSearchOutcome env with
  | some f => if usableFileAnswer f.answer then f.citations else []
  | none => []

/-- Citation count `fileSearchResults?.citations?.length || 0` used by
the footer texts and the statistics. -/
def fileCitationCount (env : DualEnv) : Nat :=
  match fileSearchOutcome env with
  | some f => f.citations.length
  | none => 0

/-- Citation count `tavilyResults?.citations?.length || 0`. -/
def tavilyCitationCount (env : DualEnv) (query : String) : Nat :=
  match tavilyOutcome env query with
  | some t => t.citations.length
  | none => 0

/-- Main flow of the dual-search `execute`: file search, Tavily search,
early denial return, then combination with provenance headers and
footers.  All throw-points are the environment's `Except` values and
each is handled, so the function is total: this is the never-throws
half of the reliability contract.  The outer `catch` (which would
return `dualErrorResult`) is unreachable in this model. -/
def dualSearchExecute (env : DualEnv) (query : String) : DualResult × List BackendCall :=
  let hasFile := hasFileResults env
  let answerAfterFile :=
    match fileSearchOutcome env with
    | some f => if usableFileAnswer f.answer then "## File Database Results\n\n" ++ f.answer else ""
    | none => ""
  let deniedEarly :=
    match tavilyOutcome env query with
    | some t => t.denied && !hasFile
    | none => false
  if deniedEarly then
    match tavilyOutcome env query with
    | some t => ({ answer := t.answer, citations := [], denied := true }, dualCalls env)
    | none => (dualErrorResult, dualCalls env)
  else
    let hasTavily := hasTavilyResults env query
    let combinedAnswer :=
      match tavilyOutcome env query with
      | some t =>
        if usableTavilyResult t then
          if hasFile then answerAfterFile ++ "\n\n## VinUni Policy Documents\n\n" ++ t.answer
          else t.answer
        else answerAfterFile
      | none => answerAfterFile
    let combinedCitations :=
      fileCitationsPart env
        ++ (match tavilyOutcome env query with
            | some t => if usableTavilyResult t then t.citations else []
            | none => [])
    if !hasFile && !hasTavily then
      ({ answer := DUAL_NO_RESULTS_MESSAGE
         citations := []
         searchStats := some { fileSearchCompleted := env.vectorStoreId.isSome
                               tavilySearchCompleted := env.tavilyApiKey.isSome
                               totalSources := 0 } }, dualCalls env)
    else
      let footer :=
        if hasFile && hasTavily then
          "\n\n---\n\n*Results compiled from " ++ toString (fileCitationCount env)
            ++ " file sources and " ++ toString (tavilyCitationCount env query)
            ++ " policy document sources.*"
        else if hasFile then
          "\n\n*Results from file database (" ++ toString (fileCitationCount env)
            ++ " sources). Policy documents search "
            ++ (if env.tavilyApiKey.isSome then "found no additional relevant information." else "was unavailable.")
            ++ "*"
        else
          "\n\n*Results from VinUni policy documents (" ++ toString (tavilyCitationCount env query)
            ++ " sources). File database search "
            ++ (if env.vectorStoreId.isSome then "found no relevant information." else "was unavailable.")
            ++ "*"
      ({ answer := combinedAnswer ++ footer
         citations := combinedCitations
         searchStats := some { fileSearchCompleted := env.vectorStoreId.isSome
                               tavilySearchCompleted := env.tavilyApiKey.isSome
                               fileResultsFound := some hasFile
                               tavilyResultsFound := some hasTavily
                               fileCitations := some (fileCitationCount env)
                               tavilyCitations := some (tavilyCitationCount env query)
                               totalSources := combinedCitations.length } }, dualCalls env)

/-! ## Concrete scenario environments (for counterexamples and witnesses) -/

/-- A dual-search environment in which both backends are configured,
the file search returns nothing usable, and the classifier judges the
query out of domain. -/
def deniedDualEnv : DualEnv :=
  { vectorStoreId := some "vs-store"
    tavilyApiKey := some "tvly-key"
    fileSearch := .ok { answer := "", citations := [] }
    tavily :=
      { validation := .ok (some "DENIED")
        policySearch := .ok []
        generalSearch := .ok []
        generation := .ok none } }

/-- A concrete policy-site search result. -/
def aidResult : SearchResult :=
  { title := "Financial Aid"
    url := "https://policy.vinuni.edu.vn/aid"
    content := "snippet"
    rawContent := "raw document text"
    score := some 1 }

/-- A Tavily environment whose classifier call throws, whose policy
search returns one result, and whose generation call returns the
literal `NOT_FOUND`. -/
def notFoundEnv : TavilyEnv :=
  { validation := .error "network error"
    policySearch := .ok [aidResult]
    generalSearch := .ok []
    generation := .ok (some "NOT_FOUND") }

/-- A dual-search environment with a usable file-database answer and a
Tavily step denied by the classifier. -/
def fileOkTavilyDeniedEnv : DualEnv :=
  { vectorStoreId := some "vs-store"
    tavilyApiKey := some "tvly-key"
    fileSearch := .ok
      { answer := "VinUni offers merit scholarships."
        citations := [{ title := "Scholarships"
                        url := "https://policy.vinuni.edu.vn/scholarships"
                        content := "text"
                        score := some 1 }] }
    tavily :=
      { validation := .ok (some "DENIED")
        policySearch := .ok []
        generalSearch := .ok []
        generation := .ok none } }

/-! ## Helper lemmas -/

theorem string_append_ne_empty_left (s t : String) (hs : s ≠ "") : s ++ t ≠ "" := by
  intro hc
  apply hs
  apply String.ext
  have h := congrArg String.data hc
  simp only [String.data_append] at h
  exact (List.append_eq_nil.mp h).1

theorem string_append_ne_empty_right (s t : String) (ht : t ≠ "") : s ++ t ≠ "" := by
  intro hc
  apply ht
  apply String.ext
  have h := congrArg String.data hc
  simp only [String.data_append] at h
  exact (List.append_eq_nil.mp h).2

/-- The denied branch of `fetchTavilyFileSearch` always carries a
non-empty explanation. -/
theorem validate_reason_ne_empty (o : Except String (Option String)) :
    (validateVinUniQuery o).reason.getD DENIED_MESSAGE ≠ "" := by
  rcases o with e | c
  · simp only [validateVinUniQuery, Option.getD_none]
    decide
  · simp only [validateVinUniQuery]
    split
    · simp only [Option.getD_some]
      decide
    · simp only [Option.getD_none]
      decide

/-- A successfully generated answer is never the empty string
(`if (!answer) throw`). -/
theorem generate_ok_ne_empty {o : Except String (Option String)} {a : String}
    (h : generateAnswerWithContext o = .ok a) : a ≠ "" := by
  rcases o with e | c
  · simp [generateAnswerWithContext] at h
  · rcases c with _ | s
    · simp [generateAnswerWithContext] at h
    · simp only [generateAnswerWithContext] at h
      split at h
      · cases h
      · cases h
        assumption

theorem scoreLe_trans : ∀ (a b c : SearchResult), scoreLe a b → scoreLe b c → scoreLe a c := by
  intro a b c hab hbc
  simp only [scoreLe, decide_eq_true_eq] at *
  exact le_trans hbc hab

theorem scoreLe_total : ∀ (a b : SearchResult), scoreLe a b || scoreLe b a := by
  intro a b
  simp only [scoreLe, Bool.or_eq_true, decide_eq_true_eq]
  exact le_total (scoreD b) (scoreD a)

/-! ## C3: the domain filter -/

/-- C3: the domain filter fails closed on an unparsable URL, accepts
exactly the hosts that (after lower-casing) equal the allow-listed
domain `vinuni.edu.vn` or end with `.` followed by it, and in
particular accepts `https://policy.vinuni.edu.vn/x`, rejects the
spoofed `https://evilvinuni.edu.vn/x` (the domain as a substring
without the separating dot), and rejects `not a url`. -/
theorem isVinUniDomain_spec :
    (∀ url, parseHost url = none → isVinUniDomain url = false)
    ∧ (∀ url host, parseHost url = some host →
        (isVinUniDomain url = true ↔
          (lowerHost host = "vinuni.edu.vn"
            ∨ strEndsWith (lowerHost host) ("." ++ "vinuni.edu.vn") = true)))
    ∧ isVinUniDomain "https://policy.vinuni.edu.vn/x" = true
    ∧ isVinUniDomain "https://evilvinuni.edu.vn/x" = false
    ∧ isVinUniDomain "not a url" = false := by
  refine ⟨?_, ?_, by decide, by decide, by decide⟩
  · intro url h
    simp [isVinUniDomain, h]
  · intro url host h
    have hdot : ("." ++ "vinuni.edu.vn" : String) = ".vinuni.edu.vn" := by decide
    simp only [isVinUniDomain, h, hdot, Bool.or_eq_true, beq_iff_eq]
    exact or_comm

/-- Witness for C3 at the concrete unparsable input. -/
theorem isVinUniDomain_spec_witness :
    parseHost "not a url" = none ∧ isVinUniDomain "not a url" = false :=
  ⟨by decide, isVinUniDomain_spec.1 "not a url" (by decide)⟩

/-! ## C7: fail-open classifier -/

/-- C7: the query classifier fails open — when the classification call
throws, or returns a response without content, `validateVinUniQuery`
reports the query as valid, so a failed classifier never blocks a
query. -/
theorem validateVinUniQuery_fail_open :
    (∀ e, (validateVinUniQuery (.error e)).isValid = true)
    ∧ (validateVinUniQuery (.ok none)).isValid = true := by
  constructor
  · intro e
    rfl
  · rfl

/-! ## C2: no de-duplication in the merge step -/

/-- Counterexample to C2: two result sets sharing the URL
`https://policy.vinuni.edu.vn/aid` with different scores; the merged
bundle contains two entries for that URL, not exactly one. -/
theorem merge_dedup_counterexample :
    (mergeResultSets
        [[⟨"a", "https://policy.vinuni.edu.vn/aid", "", "", some 2⟩],
         [⟨"b", "https://policy.vinuni.edu.vn/aid", "", "", some 1⟩]]).countP
        (fun r => r.url == "https://policy.vinuni.edu.vn/aid") = 2
    ∧ ¬ (mergeResultSets
        [[⟨"a", "https://policy.vinuni.edu.vn/aid", "", "", some 2⟩],
         [⟨"b", "https://policy.vinuni.edu.vn/aid", "", "", some 1⟩]]).countP
        (fun r => r.url == "https://policy.vinuni.edu.vn/aid") = 1 := by
  have hflat :
      ([[⟨"a", "https://policy.vinuni.edu.vn/aid", "", "", some 2⟩],
        [⟨"b", "https://policy.vinuni.edu.vn/aid", "", "", some 1⟩]] :
          List (List SearchResult)).flatten
        = [⟨"a", "https://policy.vinuni.edu.vn/aid", "", "", some 2⟩,
           ⟨"b", "https://policy.vinuni.edu.vn/aid", "", "", some 1⟩] := by
    simp
  have hcount :
      (mergeResultSets
        [[⟨"a", "https://policy.vinuni.edu.vn/aid", "", "", some 2⟩],
         [⟨"b", "https://policy.vinuni.edu.vn/aid", "", "", some 1⟩]]).countP
        (fun r => r.url == "https://policy.vinuni.edu.vn/aid") = 2 := by
    rw [mergeResultSets, hflat, List.take_of_length_le (by simp),
      (List.mergeSort_perm _ scoreLe).countP_eq]
    decide
  exact ⟨hcount, by rw [hcount]; decide⟩

/-- C2 as amended: the merge step performs no de-duplication — sorting
preserves the multiplicity of every URL, and the final cap can only
lower it; a URL shared by two input sets therefore keeps both entries
(subject to the cap of 6). -/
theorem merge_no_dedup (resultSets : List (List SearchResult)) (u : String) :
    (resultSets.flatten.mergeSort scoreLe).countP (fun r => r.url == u)
        = resultSets.flatten.countP (fun r => r.url == u)
    ∧ (mergeResultSets resultSets).countP (fun r => r.url == u)
        ≤ resultSets.flatten.countP (fun r => r.url == u) := by
  have hperm := (List.mergeSort_perm resultSets.flatten scoreLe).countP_eq
    (fun r => r.url == u)
  refine ⟨hperm, ?_⟩
  calc (mergeResultSets resultSets).countP (fun r => r.url == u)
      ≤ (resultSets.flatten.mergeSort scoreLe).countP (fun r => r.url == u) :=
        List.Sublist.countP_le _ (List.take_sublist _ _)
    _ = resultSets.flatten.countP (fun r => r.url == u) := hperm

/-! ## C5: cap, descending order, default score, stability -/

/-- C5: the merged bundle never exceeds the cap of 6, its entries are
in non-increasing order of effective score (a missing score counts as
0), and the stable sort keeps tied entries in their original relative
order: any pair occurring in the concatenation with equal effective
scores is still a sublist of the sorted sequence. -/
theorem merge_cap_sorted_stable (resultSets : List (List SearchResult)) :
    (mergeResultSets resultSets).length ≤ 6
    ∧ (mergeResultSets resultSets).Pairwise (fun a b => scoreD b ≤ scoreD a)
    ∧ (∀ r, r.score = none → scoreD r = 0)
    ∧ (∀ a b, scoreD a = scoreD b → List.Sublist [a, b] resultSets.flatten →
        List.Sublist [a, b] (resultSets.flatten.mergeSort scoreLe)) := by
  refine ⟨?_, ?_, ?_, ?_⟩
  · exact (List.length_take_le _ _).trans (le_refl 6)
  · have hs : (resultSets.flatten.mergeSort scoreLe).Pairwise (fun a b => scoreLe a b) :=
      List.sorted_mergeSort scoreLe_trans scoreLe_total _
    have hs' : (resultSets.flatten.mergeSort scoreLe).Pairwise (fun a b => scoreD b ≤ scoreD a) :=
      hs.imp (by intro a b h; simpa [scoreLe, decide_eq_true_eq] using h)
    exact hs'.sublist (List.take_sublist _ _)
  · intro r h
    simp [scoreD, h]
  · intro a b hab hsub
    exact List.pair_sublist_mergeSort scoreLe_trans scoreLe_total
      (by simp [scoreLe, hab]) hsub

/-- Witness for C5 at a concrete input: two tied results (and a
missing-score result for the default), fed as one result set. -/
theorem merge_cap_sorted_stable_witness :
    (mergeResultSets [[⟨"x", "https://a", "", "", some 1⟩, ⟨"y", "https://b", "", "", some 1⟩]]).length ≤ 6
    ∧ scoreD ⟨"z", "https://c", "", "", none⟩ = 0
    ∧ List.Sublist [⟨"x", "https://a", "", "", some 1⟩, ⟨"y", "https://b", "", "", some 1⟩]
        (([[⟨"x", "https://a", "", "", some 1⟩, ⟨"y", "https://b", "", "", some 1⟩]] :
          List (List SearchResult)).flatten.mergeSort scoreLe) := by
  have h := merge_cap_sorted_stable
    [[⟨"x", "https://a", "", "", some 1⟩, ⟨"y", "https://b", "", "", some 1⟩]]
  refine ⟨h.1, h.2.2.1 _ rfl, ?_⟩
  exact h.2.2.2 _ _ (by decide) (by simp)

/-! ## C6: idempotence of the merge -/

/-- C6: merging the singleton collection containing an already-merged
bundle returns that bundle unchanged: the merged list is sorted, so the
stable sort fixes it, and its length is at most the cap. -/
theorem merge_idempotent (A B : List SearchResult) :
    mergeResultSets [mergeResultSets [A, B]] = mergeResultSets [A, B] := by
  have hflat : ∀ (l : List SearchResult), ([l] : List (List SearchResult)).flatten = l := by
    simp
  rw [mergeResultSets, hflat]
  have hsorted : ((([A, B] : List (List SearchResult)).flatten.mergeSort scoreLe).take 6).Pairwise
      (fun a b => scoreLe a b) :=
    (List.sorted_mergeSort scoreLe_trans scoreLe_total _).sublist (List.take_sublist _ _)
  rw [mergeResultSets, List.mergeSort_of_sorted hsorted,
    List.take_of_length_le (List.length_take_le _ _)]

/-! ## C9: citation record shape -/

set_option maxRecDepth 4000 in
/-- Counterexample to C9: a result whose raw content has 200
characters yields a citation whose content field has 200 characters —
the formatter applies no 150-character preview bound. -/
theorem citation_preview_counterexample :
    (formatCitations
        [⟨"t", "https://policy.vinuni.edu.vn/a", "", String.mk (List.replicate 200 'x'), some 1⟩]).map
        (fun c => c.content.length) = [200]
    ∧ ¬ (200 ≤ 150) := by
  constructor
  · decide
  · decide

/-- C9 as amended: every citation record is the projection
`{title, url, content, score}` of its search result, where `content`
carries the full raw content with no length bound; the UI renderer
derives the bounded preview (at most 150 characters plus a
3-character ellipsis) from that field. -/
theorem formatCitations_shape (searchResults : List SearchResult) :
    formatCitations searchResults = searchResults.map citationOfResult
    ∧ (formatCitations searchResults).length = searchResults.length
    ∧ (∀ result, (citationOfResult result).content = result.rawContent)
    ∧ (∀ citation, (citationPreviewUI citation).length ≤ 153) := by
  refine ⟨rfl, by simp [formatCitations], fun result => rfl, ?_⟩
  intro citation
  rw [citationPreviewUI]
  split
  · simp only [String.length_append, String.length_mk]
    have h1 : (citation.content.data.take 150).length ≤ 150 := List.length_take_le _ _
    have h2 : ("..." : String).length = 3 := by decide
    omega
  · decide

/-- Every branch of `fetchTavilyFileSearch` returns a non-empty
explanatory answer. -/
theorem fetchTavily_answer_ne_empty (env : TavilyEnv) (query : String) :
    (fetchTavilyFileSearch env query).answer ≠ "" := by
  rw [fetchTavilyFileSearch]
  split
  · exact validate_reason_ne_empty env.validation
  · split
    · exact fun hc => by simp [tavilyErrorResult, DEFAULT_ERROR_MESSAGE] at hc
    · split
      · show NO_RESULTS_MESSAGE ≠ ""
        decide
      · split
        · exact fun hc => by simp [tavilyErrorResult, DEFAULT_ERROR_MESSAGE] at hc
        · next answer heq =>
          split
          · show DENIED_MESSAGE ≠ ""
            decide
          · split
            · show NOT_FOUND_MESSAGE ≠ ""
              decide
            · exact generate_ok_ne_empty heq

/-- Any answer attached to a present Tavily outcome is non-empty. -/
theorem tavilyOutcome_answer_ne_empty (env : DualEnv) (query : String) (t : TavilyResult)
    (ht : tavilyOutcome env query = some t) : t.answer ≠ "" := by
  rw [tavilyOutcome] at ht
  rcases h : env.tavilyApiKey with _ | k
  · rw [h] at ht
    cases ht
  · rw [h] at ht
    cases ht
    exact fetchTavily_answer_ne_empty env.tavily query

/-! ## C1: total recovery of the dual-search execute -/

/-- C1: for every combination of backend failures (classification
error, search backend error, missing credential, generation error,
file-search exception) the dual-search `execute` returns a well-formed
result with a non-empty explanatory answer; a denied outcome carries an
empty citations list.  Totality of the embedded function — every
throw-point of the source is an `Except` input handled by some branch —
is the never-throws half of the claim. -/
theorem dual_execute_total (env : DualEnv) (query : String) :
    (dualSearchExecute env query).1.answer ≠ ""
    ∧ ((dualSearchExecute env query).1.denied = true →
        (dualSearchExecute env query).1.citations = []) := by
  simp only [dualSearchExecute]
  split
  · -- early denied return
    split
    · next t heq =>
      exact ⟨tavilyOutcome_answer_ne_empty env query t heq, fun _ => rfl⟩
    · refine ⟨?_, fun _ => rfl⟩
      show dualErrorResult.answer ≠ ""
      decide
  · split
    · -- neither backend usable
      refine ⟨?_, ?_⟩
      · show DUAL_NO_RESULTS_MESSAGE ≠ ""
        decide
      · intro h
        exact absurd h (by simp)
    · -- combined answer with footer
      refine ⟨?_, ?_⟩
      · apply string_append_ne_empty_right
        split
        · apply string_append_ne_empty_left
          apply string_append_ne_empty_left
          apply string_append_ne_empty_left
          apply string_append_ne_empty_left
          decide
        · split
          · apply string_append_ne_empty_left
            apply string_append_ne_empty_left
            apply string_append_ne_empty_left
            apply string_append_ne_empty_left
            decide
          · apply string_append_ne_empty_left
            apply string_append_ne_empty_left
            apply string_append_ne_empty_left
            apply string_append_ne_empty_left
            decide
      · intro h
        exact absurd h (by simp)

/-- Witness for C1 at a concrete failing environment: both credentials
set, the file search returning nothing usable and the classifier
denying; the answer is non-empty and the denied outcome has no
citations. -/
theorem dual_execute_total_witness :
    (dualSearchExecute
        ⟨some "vs", some "key", .ok ⟨"", []⟩,
          ⟨.ok (some "DENIED"), .ok [], .ok [], .ok none⟩⟩ "q").1.answer ≠ ""
    ∧ (dualSearchExecute
        ⟨some "vs", some "key", .ok ⟨"", []⟩,
          ⟨.ok (some "DENIED"), .ok [], .ok [], .ok none⟩⟩ "q").1.citations = [] :=
  ⟨(dual_execute_total
      ⟨some "vs", some "key", .ok ⟨"", []⟩,
        ⟨.ok (some "DENIED"), .ok [], .ok [], .ok none⟩⟩ "q").1,
    (dual_execute_total
      ⟨some "vs", some "key", .ok ⟨"", []⟩,
        ⟨.ok (some "DENIED"), .ok [], .ok [], .ok none⟩⟩ "q").2 (by decide)⟩

/-! ## C4: denial ordering versus backend calls -/

/-- Counterexample to C4: with both backends configured and the
classifier judging the query out of domain, the dual orchestration
does return a denied outcome — but it has already issued the
file-database backend search, so the set of backend search calls is
not empty. -/
theorem dual_denied_still_calls_file :
    (dualSearchExecute deniedDualEnv "Who won the World Cup 2022?").1.denied = true
    ∧ (dualSearchExecute deniedDualEnv "Who won the World Cup 2022?").2
        = [BackendCall.fileSearch]
    ∧ ([BackendCall.fileSearch] : List BackendCall) ≠ [] := by
  refine ⟨by decide, by decide, by decide⟩

/-- C4 as amended: within the Tavily sub-orchestration validation does
strictly precede every backend search — a query the classifier denies
yields a denied outcome with no citations and zero Tavily search
calls; the dual orchestrator, however, issues its file-database search
before that validation (see the counterexample). -/
theorem tavily_denied_no_search_calls (env : TavilyEnv) (query : String)
    (h : (validateVinUniQuery env.validation).isValid = false) :
    (fetchTavilyFileSearch env query).denied = true
    ∧ (fetchTavilyFileSearch env query).answer
        = (validateVinUniQuery env.validation).reason.getD DENIED_MESSAGE
    ∧ (fetchTavilyFileSearch env query).citations = []
    ∧ tavilyCalls env = [] := by
  rw [fetchTavilyFileSearch, tavilyCalls]
  simp [h]

/-- Witness for C4's amended theorem at the concrete denied
environment. -/
theorem tavily_denied_no_search_calls_witness :
    (validateVinUniQuery deniedDualEnv.tavily.validation).isValid = false
    ∧ ((fetchTavilyFileSearch deniedDualEnv.tavily "Who won the World Cup 2022?").denied = true
      ∧ (fetchTavilyFileSearch deniedDualEnv.tavily "Who won the World Cup 2022?").answer
          = (validateVinUniQuery deniedDualEnv.tavily.validation).reason.getD DENIED_MESSAGE
      ∧ (fetchTavilyFileSearch deniedDualEnv.tavily "Who won the World Cup 2022?").citations = []
      ∧ tavilyCalls deniedDualEnv.tavily = []) :=
  ⟨by decide,
    tavily_denied_no_search_calls deniedDualEnv.tavily "Who won the World Cup 2022?" (by decide)⟩

/-! ## C8: NOT_FOUND still surfaces the evidence -/

/-- C8: when validation passes, the searches produce a non-empty
merged evidence bundle, and the generation capability returns exactly
the literal `NOT_FOUND`, the outcome carries the fixed not-found
answer, is not denied, and its citations are exactly the projection of
the evidence bundle. -/
theorem tavily_not_found_surfaces_citations (env : TavilyEnv) (query : String)
    (p g : List SearchResult)
    (hv : (validateVinUniQuery env.validation).isValid = true)
    (hp : env.policySearch = .ok p)
    (hg : env.generalSearch = .ok g)
    (hE : mergeResultSets [p, (filterVinUniResults g).take MAX_RESULTS_PER_DOMAIN] ≠ [])
    (hgen : env.generation = .ok (some "NOT_FOUND")) :
    (fetchTavilyFileSearch env query).answer = NOT_FOUND_MESSAGE
    ∧ (fetchTavilyFileSearch env query).citations
        = formatCitations (mergeResultSets [p, (filterVinUniResults g).take MAX_RESULTS_PER_DOMAIN])
    ∧ (fetchTavilyFileSearch env query).denied = false := by
  have hlen : ¬ ((mergeResultSets [p, (filterVinUniResults g).take MAX_RESULTS_PER_DOMAIN]).length = 0) := by
    simpa [List.length_eq_zero] using hE
  rw [fetchTavilyFileSearch, performDualDomainSearch, hp, hg, hgen]
  simp [hv, hlen, generateAnswerWithContext]

/-- Witness for C8 at the concrete environment with one policy
result. -/
theorem tavily_not_found_witness :
    (fetchTavilyFileSearch notFoundEnv "What financial aid options exist?").answer
        = NOT_FOUND_MESSAGE
    ∧ (fetchTavilyFileSearch notFoundEnv "What financial aid options exist?").citations
        = formatCitations
            (mergeResultSets [[aidResult], (filterVinUniResults []).take MAX_RESULTS_PER_DOMAIN])
    ∧ (fetchTavilyFileSearch notFoundEnv "What financial aid options exist?").denied = false :=
  tavily_not_found_surfaces_citations notFoundEnv "What financial aid options exist?"
    [aidResult] [] (by decide) rfl rfl
    (by simp [mergeResultSets, filterVinUniResults]) rfl

/-- The denied flag of the dual-search outcome equals the early-denial
condition: a Tavily outcome marked denied while the file answer is not
usable. -/
theorem dual_denied_eq (env : DualEnv) (query : String) :
    (dualSearchExecute env query).1.denied
      = (match tavilyOutcome env query with
          | some t => t.denied && !hasFileResults env
          | none => false) := by
  simp only [dualSearchExecute]
  split
  · next htrue =>
    split
    · next t heq =>
      rw [heq] at htrue
      exact htrue.symm
    · next heq =>
      rw [heq] at htrue
      simp at htrue
  · next hfalse =>
    have h : (match tavilyOutcome env query with
        | some t => t.denied && !hasFileResults env
        | none => false) = false := by
      revert hfalse
      cases tavilyOutcome env query <;> simp
    rw [h]
    split <;> rfl

/-! ## C10: denial suppression by the file database -/

/-- C10: the dual search returns a denied outcome exactly when the
Tavily step was attempted and denied while the file database produced
no usable answer; and when the file answer is usable, a Tavily denial
is suppressed — the outcome is not denied, carries the file citations,
and its answer is the file answer under its provenance header and
footer. -/
theorem dual_denial_suppression (env : DualEnv) (query : String) :
    ((dualSearchExecute env query).1.denied = true ↔
      (hasFileResults env = false
        ∧ ∃ t, tavilyOutcome env query = some t ∧ t.denied = true))
    ∧ (∀ f t, fileSearchOutcome env = some f → usableFileAnswer f.answer = true →
        tavilyOutcome env query = some t → t.denied = true →
        (dualSearchExecute env query).1.denied = false
        ∧ (dualSearchExecute env query).1.citations = f.citations
        ∧ (dualSearchExecute env query).1.answer
            = ("## File Database Results\n\n" ++ f.answer)
              ++ ("\n\n*Results from file database (" ++ toString f.citations.length
                  ++ " sources). Policy documents search "
                  ++ "found no additional relevant information." ++ "*")) := by
  constructor
  · rw [dual_denied_eq]
    rcases htav : tavilyOutcome env query with _ | t
    · simp
    · simp [Bool.and_eq_true, Bool.not_eq_true', and_comm]
  · intro f t hf hus htav htd
    have happ : env.tavilyApiKey.isSome = true := by
      rw [tavilyOutcome] at htav
      rcases h : env.tavilyApiKey with _ | k
      · rw [h] at htav
        cases htav
      · simp [h]
    have hfile_true : hasFileResults env = true := by
      rw [hasFileResults, hf]
      exact hus
    have ht_not_usable : usableTavilyResult t = false := by
      simp [usableTavilyResult, htd]
    have hhasTav : hasTavilyResults env query = false := by
      rw [hasTavilyResults, htav]
      exact ht_not_usable
    simp only [dualSearchExecute, htav, hfile_true, hhasTav, htd, ht_not_usable,
      fileCitationsPart, fileCitationCount, hf, hus, happ]
    simp

set_option maxRecDepth 4000 in
/-- Witness for C10 at the concrete environment with a usable file
answer and a denied Tavily step. -/
theorem dual_denial_suppression_witness :
    (dualSearchExecute fileOkTavilyDeniedEnv "What scholarships exist?").1.denied = false
    ∧ (dualSearchExecute fileOkTavilyDeniedEnv "What scholarships exist?").1.citations
        = [{ title := "Scholarships", url := "https://policy.vinuni.edu.vn/scholarships",
             content := "text", score := some 1 }]
    ∧ (dualSearchExecute fileOkTavilyDeniedEnv "What scholarships exist?").1.answer
        = ("## File Database Results\n\n" ++ "VinUni offers merit scholarships.")
          ++ ("\n\n*Results from file database (" ++ toString (1 : Nat)
              ++ " sources). Policy documents search "
              ++ "found no additional relevant information." ++ "*") := by
  have h := (dual_denial_suppression fileOkTavilyDeniedEnv "What scholarships exist?").2
    { answer := "VinUni offers merit scholarships."
      citations := [{ title := "Scholarships", url := "https://policy.vinuni.edu.vn/scholarships",
                      content := "text", score := some 1 }] }
    { answer := VALIDATION_DENIED_REASON, citations := [], denied := true }
    rfl (by decide) (by decide) rfl
  exact h

end VinUniSearch
